import Mathlib

/-!
Verification of the credential-management and session-lifecycle subsystem of
cloud-provider-vsphere (`pkg/common/credentialmanager` + `pkg/common/vclib`).

The first part embeds the credential config parser and the credential manager.
The Go file `credentialmanager.go` itself is not part of the source tree made
available here; only its test file `credentialmanager_test.go` is.  The
definitions below are therefore modelled from the specification (spec.md
sections 3, 4.1 and 4.2), and every behaviour that the repository's own test
file pins down at a concrete input is reproduced and checked by `example`s
below (`TestParseSecretConfig` and `TestSecretCredentialManagerK8s_GetCredential`).

The second part embeds `pkg/common/vclib/connection.go`, which is present in
the source tree, as a state-passing function over an oracle environment that
supplies the outcomes of the external govmomi/network calls.
-/

set_option maxHeartbeats 1000000

namespace CPV

/-- One endpoint's auth material, mirroring the Go struct `Credential`
(fields `User`, `Password`, `VCSessionManagerURL`, `VCSessionManagerToken`). -/
structure Credential where
  User : String
  Password : String
  VCSessionManagerURL : String
  VCSessionManagerToken : String
  deriving Repr, DecidableEq

/-- The Go zero value `&Credential{}`. -/
def Credential.empty : Credential := ⟨"", "", "", ""⟩

/-- The parser / lookup error values (`ErrCredentialsNotFound`,
`ErrCredentialMissing`, `ErrUnknownSecretKey`, `ErrIncompleteCredentialSet`). -/
inductive CredError where
  | ErrCredentialsNotFound
  | ErrCredentialMissing
  | ErrUnknownSecretKey
  | ErrIncompleteCredentialSet
  deriving Repr, DecidableEq

/-- `strStarts s p` models Go `strings.HasPrefix(s, p)`. -/
def strStarts (s p : String) : Bool := p.data.isPrefixOf s.data

/-- `strEnds s p` models Go `strings.HasSuffix(s, p)`. -/
def strEnds (s p : String) : Bool := p.data.reverse.isPrefixOf s.data.reverse

/-- `dropN s n` drops the first `n` characters of `s`. -/
def dropN (s : String) (n : Nat) : String := ⟨s.data.drop n⟩

/-- `dropRightN s n` drops the last `n` characters of `s`. -/
def dropRightN (s : String) (n : Nat) : String := ⟨(s.data.take (s.data.length - n))⟩

/-- Models Go `bytes.TrimRight(v, "\n")`: remove every trailing newline. -/
def trimNewlines (s : String) : String :=
  ⟨(s.data.reverse.dropWhile (fun c => c == Char.ofNat 10)).reverse⟩

/-- Classification of one Secret key by the two naming conventions of spec
section 4.1: the indexed form `username_<idx>` / `password_<idx>` /
`server_<idx>` (index token must be non-empty) and the legacy dotted form
`<endpoint>.username` / `<endpoint>.password` /
`<endpoint>.vc-session-manager-url` / `<endpoint>.vc-session-manager-token`. -/
inductive KeyKind where
  | altUser (idx : String)
  | altPass (idx : String)
  | altServer (idx : String)
  | legacyUser (ep : String)
  | legacyPass (ep : String)
  | legacyURL (ep : String)
  | legacyToken (ep : String)
  | unknown
  deriving Repr, DecidableEq

/-- Modelled from the spec: classify one key of the Secret payload
("scan every key; classify by suffix/prefix pattern").  The indexed-form
prefixes are tested first so that an arbitrary non-empty index token is
accepted, as spec section 4.1 requires; a key matching neither convention
(including an indexed key with an empty suffix) is `unknown`. -/
def classifyKey (k : String) : KeyKind :=
  if strStarts k "username_" ∧ k ≠ "username_" then .altUser (dropN k 9)
  else if strStarts k "password_" ∧ k ≠ "password_" then .altPass (dropN k 9)
  else if strStarts k "server_" ∧ k ≠ "server_" then .altServer (dropN k 7)
  else if strEnds k ".username" then .legacyUser (dropRightN k 9)
  else if strEnds k ".password" then .legacyPass (dropRightN k 9)
  else if strEnds k ".vc-session-manager-url" then .legacyURL (dropRightN k 23)
  else if strEnds k ".vc-session-manager-token" then .legacyToken (dropRightN k 25)
  else .unknown

/-- The Credential Table: endpoint-keyed association list (Go
`map[string]*Credential`, made deterministic by list order). -/
abbrev CredTable := List (String × Credential)

/-- Lookup of an endpoint in the table (Go `config[server]`). -/
def lookupCred : CredTable → String → Option Credential
  | [], _ => none
  | (k, c) :: rest, s => if k = s then some c else lookupCred rest s

/-- Keys of a table. -/
def keysC (t : CredTable) : List String := t.map Prod.fst

/-- Insert-or-update of one endpoint entry, modelling the Go idiom
`if _, ok := config[k]; !ok { config[k] = &Credential{} }` followed by a
field assignment `f` on `config[k]`. -/
def upsertCred : CredTable → String → (Credential → Credential) → CredTable
  | [], k, f => [(k, f Credential.empty)]
  | (k', c) :: rest, k, f =>
      if k' = k then (k', f c) :: rest else (k', c) :: upsertCred rest k f

/-- Staging record for one indexed-form triple being accumulated. -/
structure AltEntry where
  user : Option String
  pass : Option String
  server : Option String
  deriving Repr, DecidableEq

/-- The empty staging record. -/
def AltEntry.empty : AltEntry := ⟨none, none, none⟩

/-- Staging structure for the indexed form, keyed by index token. -/
abbrev AltStaging := List (String × AltEntry)

/-- Keys of a staging structure. -/
def keysA (t : AltStaging) : List String := t.map Prod.fst

/-- Insert-or-update of one staging entry. -/
def upsertAlt : AltStaging → String → (AltEntry → AltEntry) → AltStaging
  | [], k, f => [(k, f AltEntry.empty)]
  | (k', c) :: rest, k, f =>
      if k' = k then (k', f c) :: rest else (k', c) :: upsertAlt rest k f

/-- Apply one classified key/value pair to the accumulating table and the
indexed-form staging structure; `none` on an unknown key. -/
def applyKey (cfg : CredTable) (stg : AltStaging) (kind : KeyKind) (v : String) :
    Option (CredTable × AltStaging) :=
  match kind with
  | .legacyUser ep => some (upsertCred cfg ep (fun c => { c with User := v }), stg)
  | .legacyPass ep => some (upsertCred cfg ep (fun c => { c with Password := v }), stg)
  | .legacyURL ep => some (upsertCred cfg ep (fun c => { c with VCSessionManagerURL := v }), stg)
  | .legacyToken ep => some (upsertCred cfg ep (fun c => { c with VCSessionManagerToken := v }), stg)
  | .altUser idx => some (cfg, upsertAlt stg idx (fun e => { e with user := some v }))
  | .altPass idx => some (cfg, upsertAlt stg idx (fun e => { e with pass := some v }))
  | .altServer idx => some (cfg, upsertAlt stg idx (fun e => { e with server := some v }))
  | .unknown => none

/-- Scan every key of the payload in order, trimming trailing newlines from
values; aborts on the first unknown key (spec: "first invalid key aborts"). -/
def scanKeys : List (String × String) → CredTable → AltStaging →
    Option (CredTable × AltStaging)
  | [], cfg, stg => some (cfg, stg)
  | (k, v) :: rest, cfg, stg =>
      match applyKey cfg stg (classifyKey k) (trimNewlines v) with
      | none => none
      | some (cfg', stg') => scanKeys rest cfg' stg'

/-- Merge the staged indexed-form entries into the table: each staged index
must carry a `server_<idx>` key (otherwise the set is incomplete, second
component `false`); its username/password (empty string when the key is
absent) are written to the entry keyed by the server value. -/
def mergeAlt : AltStaging → CredTable → CredTable × Bool
  | [], cfg => (cfg, true)
  | (_, e) :: rest, cfg =>
      match e.server with
      | none => (cfg, false)
      | some s =>
          mergeAlt rest
            (upsertCred cfg s
              (fun c => { c with User := e.user.getD "", Password := e.pass.getD "" }))

/-- Validation of one accumulated entry, from the spec's invariant on
`Credential` together with the behaviour the tests pin: an entry is valid
when its session-manager URL is non-empty (the token is optional), or when
both username and password are non-empty. -/
def credValid (c : Credential) : Bool :=
  c.VCSessionManagerURL != "" || (c.User != "" && c.Password != "")

/-- Modelled from the spec: `parseConfig(data, config)` of
`credentialmanager.go` (absent from the source tree; behaviour pinned by
`TestParseSecretConfig`).  An empty payload fails with
`ErrCredentialMissing`; an unknown key aborts the batch with
`ErrUnknownSecretKey` (no partial table committed, per spec section 4.1); a
staged indexed entry without a server key fails with
`ErrIncompleteCredentialSet`; after accumulation, a remaining invalid entry
fails with `ErrCredentialMissing`, the accumulated table being returned
alongside the error exactly as the Go in-place mutation of `config` leaves
it (the test checks the partially populated table on this error). -/
def parseConfig (data : List (String × String)) (config : CredTable) :
    CredTable × Option CredError :=
  if data = [] then (config, some .ErrCredentialMissing)
  else
    match scanKeys data config [] with
    | none => (config, some .ErrUnknownSecretKey)
    | some (cfg, stg) =>
        match mergeAlt stg cfg with
        | (cfg', false) => (cfg', some .ErrIncompleteCredentialSet)
        | (cfg', true) =>
            if cfg'.all (fun p => credValid p.2) then (cfg', none)
            else (cfg', some .ErrCredentialMissing)

/-! The Credential Manager (spec section 4.2), modelled from the spec since
`credentialmanager.go` is absent from the source tree; behaviour pinned by
`TestSecretCredentialManagerK8s_GetCredential`. -/

/-- A Kubernetes Secret as this subsystem sees it: an object identity
(resource version) and the flat key/value payload. -/
structure KSecret where
  version : Nat
  data : List (String × String)
  deriving Repr, DecidableEq

/-- The manager's cache: the identity of the last successfully parsed Secret
and the Credential Table derived from it. -/
structure SecretCache where
  secret : Option Nat
  table : CredTable
  deriving Repr, DecidableEq

/-- The Credential Manager state (name/namespace fixed, so only the cache). -/
structure CredentialManager where
  cache : SecretCache
  deriving Repr, DecidableEq

/-- Modelled from the spec: `GetCredential(server)` of `credentialmanager.go`
(absent from the source tree).  The store parameter is the externally
maintained Secret store's current object (`none` = Secret deleted / absent).
Per spec section 4.2: when the Secret is absent the cache is NOT cleared and
the last parsed table keeps serving; when the stored Secret differs by
resource version from the cached one it is reparsed, the cache being
replaced only on parse success, the parse error being surfaced otherwise
(pinned by the empty-Secret test vector); finally the endpoint is looked up
in the cached table, `ErrCredentialsNotFound` when no entry matches. -/
def GetCredential (mgr : CredentialManager) (store : Option KSecret) (server : String) :
    CredentialManager × Except CredError Credential :=
  let refreshed : CredentialManager × Option CredError :=
    match store with
    | none => (mgr, none)
    | some secret =>
        if mgr.cache.secret = some secret.version then (mgr, none)
        else
          match parseConfig secret.data [] with
          | (_, some e) => (mgr, some e)
          | (table, none) => (⟨⟨some secret.version, table⟩⟩, none)
  match refreshed with
  | (mgr', some e) => (mgr', .error e)
  | (mgr', none) =>
      match lookupCred mgr'.cache.table server with
      | some c => (mgr', .ok c)
      | none => (mgr', .error .ErrCredentialsNotFound)

/-- The fresh manager of the test harness (empty cache). -/
def emptyManager : CredentialManager := ⟨⟨none, []⟩⟩

/-- The `defaultSecret` of the test file. -/
def defaultSecret : KSecret :=
  ⟨1, [("0.0.0.0.username", "user"), ("0.0.0.0.password", "password")]⟩

/-! The vCenter connection / session lifecycle, embedded from
`pkg/common/vclib/connection.go` (present in the source tree).  Clients,
sessions and Go error values are abstract (`Nat` handles); the outcomes of
the external govmomi/network calls are supplied by an oracle environment
`VCEnv`, and each embedded function additionally returns the list of
externally visible authentication actions it performed, so that "performs
exactly one login" and "does not consult the credentials" are statable. -/

/-- Abstract Go error value. -/
abbrev GoErr := Nat

/-- The `VSphereConnection` struct of connection.go (the mutex field is
meaningless in a sequential embedding and is omitted). -/
structure VSphereConnection where
  Client : Option Nat
  Username : String
  Password : String
  Hostname : String
  Port : String
  CACert : String
  Thumbprint : String
  Insecure : Bool
  SessionManagerURL : String
  SessionManagerToken : String
  RoundTripperCount : Nat

/-- Modelled from the spec: the constant `RoundTripperDefaultCount` of the
vclib package (its defining Go file is absent from the source tree; spec
section 3 says `RoundTripperCount` is a "retry budget ... defaults to a
fixed constant if unset", so the constant is in particular non-zero). -/
def RoundTripperDefaultCount : Nat := 3

/-- Externally visible authentication actions, for traces. -/
inductive AuthEvent where
  | userSessionQuery
  | newClientCall
  | getSharedToken
  | cloneSession
  | stsIssue
  | loginByToken
  | loginUserPass (user : String) (password : String)
  deriving Repr, DecidableEq

/-- The oracle environment: outcomes of the external govmomi / network /
crypto calls made by connection.go.  `pemDecode` abstracts
`pem.Decode([]byte(username))` succeeding; `userSession` is the result of
`session.Manager.UserSession` (`none` = no active session). -/
structure VCEnv where
  parseURL : Except GoErr Unit
  setRootCAs : Except GoErr Unit
  vimNewClient : Except GoErr Nat
  getSharedToken : String → String → Except GoErr String
  cloneSession : String → Except GoErr Unit
  pemDecode : String → Bool
  x509KeyPair : Except GoErr Unit
  stsNewClient : Except GoErr Unit
  stsIssue : Except GoErr Nat
  loginUserPass : String → String → Except GoErr Unit
  loginByToken : Nat → Except GoErr Unit
  userSession : Except GoErr (Option Nat)

/-- `VSphereConnection.Signer` of connection.go: `nil` signer (no error) when
the username is not PEM-encoded, otherwise X509 key pair + STS client +
token issue, any failure surfaced. -/
def Signer (conn : VSphereConnection) (env : VCEnv) :
    (Except GoErr (Option Nat)) × List AuthEvent :=
  if env.pemDecode conn.Username then
    match env.x509KeyPair with
    | .error e => (.error e, [])
    | .ok _ =>
        match env.stsNewClient with
        | .error e => (.error e, [])
        | .ok _ =>
            match env.stsIssue with
            | .error e => (.error e, [.stsIssue])
            | .ok sg => (.ok (some sg), [.stsIssue])
  else (.ok none, [])

/-- `VSphereConnection.login` of connection.go: if `SessionManagerURL` is
non-empty, fetch the shared token and clone the session; else compute the
signer; with no signer, `SessionManager.Login` with username/password;
otherwise `SessionManager.LoginByToken` with the signer. -/
def login (conn : VSphereConnection) (env : VCEnv) :
    Option GoErr × List AuthEvent :=
  if conn.SessionManagerURL ≠ "" then
    match env.getSharedToken conn.SessionManagerURL conn.SessionManagerToken with
    | .error e => (some e, [.getSharedToken])
    | .ok token =>
        match env.cloneSession token with
        | .error e => (some e, [.getSharedToken, .cloneSession])
        | .ok _ => (none, [.getSharedToken, .cloneSession])
  else
    match Signer conn env with
    | (.error e, tr) => (some e, tr)
    | (.ok none, tr) =>
        match env.loginUserPass conn.Username conn.Password with
        | .error e => (some e, tr ++ [.loginUserPass conn.Username conn.Password])
        | .ok _ => (none, tr ++ [.loginUserPass conn.Username conn.Password])
    | (.ok (some sg), tr) =>
        match env.loginByToken sg with
        | .error e => (some e, tr ++ [.loginByToken])
        | .ok _ => (none, tr ++ [.loginByToken])

/-- `VSphereConnection.NewClient` of connection.go: parse the URL, build the
soap client (`SetRootCAs` only when a CA cert is configured), create the
vim25 client, log in, and only then default `RoundTripperCount` to
`RoundTripperDefaultCount` when it is `0` and wrap the round tripper.
Returns the updated connection (the only field written is
`RoundTripperCount`, and only on the success path), the created client or
the error, and the trace. -/
def NewClient (conn : VSphereConnection) (env : VCEnv) :
    VSphereConnection × Except GoErr Nat × List AuthEvent :=
  match env.parseURL with
  | .error e => (conn, .error e, [])
  | .ok _ =>
      match (if conn.CACert ≠ "" then env.setRootCAs else .ok ()) with
      | .error e => (conn, .error e, [])
      | .ok _ =>
          match env.vimNewClient with
          | .error e => (conn, .error e, [])
          | .ok c =>
              match login conn env with
              | (some e, tr) => (conn, .error e, tr)
              | (none, tr) =>
                  (if conn.RoundTripperCount = 0 then
                    { conn with RoundTripperCount := RoundTripperDefaultCount }
                   else conn, .ok c, tr)

/-- Result of one `Connect` call: the connection after the call, the
returned error, and the trace of authentication actions. -/
structure ConnectResult where
  conn : VSphereConnection
  err : Option GoErr
  trace : List AuthEvent

/-- `VSphereConnection.Connect` of connection.go.  With no client, a full
`NewClient`; with a client, query the user session: a query error is
returned as-is (connection untouched), a live session returns nil error,
and a nil session triggers one `NewClient`.  The Go multiple assignment
`connection.Client, err = connection.NewClient(ctx)` writes the returned
client into the `Client` field on success AND failure (nil on failure). -/
def Connect (conn : VSphereConnection) (env : VCEnv) : ConnectResult :=
  match conn.Client with
  | none =>
      match NewClient conn env with
      | (conn', .error e, tr) => ⟨{ conn' with Client := none }, some e, .newClientCall :: tr⟩
      | (conn', .ok c, tr) => ⟨{ conn' with Client := some c }, none, .newClientCall :: tr⟩
  | some _ =>
      match env.userSession with
      | .error e => ⟨conn, some e, [.userSessionQuery]⟩
      | .ok (some _) => ⟨conn, none, [.userSessionQuery]⟩
      | .ok none =>
          match NewClient conn env with
          | (conn', .error e, tr) =>
              ⟨{ conn' with Client := none }, some e, .userSessionQuery :: .newClientCall :: tr⟩
          | (conn', .ok c, tr) =>
              ⟨{ conn' with Client := some c }, none, .userSessionQuery :: .newClientCall :: tr⟩

/-- `VSphereConnection.UpdateCredentials` of connection.go: assign the four
credential fields (under the credentials lock in Go). -/
def UpdateCredentials (conn : VSphereConnection) (username password sessionmgrURL sessionmgrToken : String) :
    VSphereConnection :=
  { conn with
    Username := username
    Password := password
    SessionManagerURL := sessionmgrURL
    SessionManagerToken := sessionmgrToken }

/-- An event that completes a login by one of the three strategies
(`CloneSession`, `Login`, `LoginByToken`). -/
def isLoginEvent : AuthEvent → Bool
  | .cloneSession => true
  | .loginByToken => true
  | .loginUserPass _ _ => true
  | _ => false

/-- Number of completed login actions in a trace. -/
def countLogin (tr : List AuthEvent) : Nat := (tr.filter isLoginEvent).length

/-! Structured indexed-form payloads, used to quantify over "payloads in
which every index token has all three keys". -/

/-- One indexed-form triple: index token and the three values. -/
structure AltTriple where
  idx : String
  user : String
  pass : String
  server : String
  deriving Repr, DecidableEq

/-- The three Secret keys of one indexed-form triple. -/
def tripleKeys (t : AltTriple) : List (String × String) :=
  [("username_" ++ t.idx, t.user), ("password_" ++ t.idx, t.pass), ("server_" ++ t.idx, t.server)]

/-- The payload consisting of the keys of the given triples, in order. -/
def altPayload : List AltTriple → List (String × String)
  | [] => []
  | t :: ts => tripleKeys t ++ altPayload ts

/-- The staging record a fully scanned triple produces. -/
def stagedTriple (t : AltTriple) : AltEntry :=
  ⟨some (trimNewlines t.user), some (trimNewlines t.pass), some (trimNewlines t.server)⟩

/-- Merging one fully staged triple into the table. -/
def mergeStep (c : CredTable) (t : AltTriple) : CredTable :=
  upsertCred c (trimNewlines t.server)
    (fun cr => { cr with User := trimNewlines t.user, Password := trimNewlines t.pass })

/-! Concrete fixtures for witnesses. -/

/-- A connection with an established client and username/password auth. -/
def connWithClient : VSphereConnection :=
  ⟨some 1, "user", "secret", "vc.example", "443", "", "", false, "", "", 0⟩

/-- A connection configured for the shared session-manager strategy. -/
def connShared : VSphereConnection :=
  { connWithClient with SessionManagerURL := "https://mgr.tld/session", SessionManagerToken := "tok" }

/-- A connection whose username is (abstractly) PEM-encoded. -/
def connPEM : VSphereConnection := { connWithClient with Username := "PEMCERT" }

/-- Baseline environment: every external call succeeds and the user session
is live. -/
def envBase : VCEnv :=
  ⟨.ok (), .ok (), .ok 2, fun _ _ => .ok "sharedtoken", fun _ => .ok (),
   fun _ => false, .ok (), .ok (), .ok 9, fun _ _ => .ok (), fun _ => .ok (), .ok (some 5)⟩

/-- The session-validity query itself fails (network/transport error 7). -/
def envQueryErr : VCEnv := { envBase with userSession := .error 7 }

/-- The session query succeeds but reports no active session. -/
def envExpired : VCEnv := { envBase with userSession := .ok none }

/-- Expired session and the fresh-client creation fails (error 8). -/
def envExpiredFail : VCEnv := { envExpired with vimNewClient := .error 8 }

/-- Environment in which the string "PEMCERT" decodes as a PEM block. -/
def envPEM : VCEnv := { envBase with pemDecode := fun s => s == "PEMCERT" }

/-- A manager whose cache holds a successfully parsed table. -/
def mgrCached : CredentialManager := ⟨⟨some 1, [("0.0.0.0", ⟨"user", "password", "", ""⟩)]⟩⟩

/-- Concrete triples for the indexed-form witnesses. -/
def triples0 : List AltTriple :=
  [⟨"0", "Admin", "Password", "fd01::1"⟩, ⟨"foo", "Adminfoo", "Passwordfoo", "10.20.30.40"⟩]

/-! Concrete pins from `TestParseSecretConfig` (credentialmanager_test.go).
Each `example` reproduces one test vector of the repository's own test file
and checks the model against its expected table and error. -/

example : parseConfig [("10.20.30.40.username", "Admin"), ("10.20.30.40.password", "Password")] []
    = ([("10.20.30.40", ⟨"Admin", "Password", "", ""⟩)], none) := by decide

example : parseConfig [("10.20.30.40.username", "Admin\n"), ("10.20.30.40.password", "Password\n")] []
    = ([("10.20.30.40", ⟨"Admin", "Password", "", ""⟩)], none) := by decide

example : (parseConfig [("10.20.30.40.usernam", "Admin"), ("10.20.30.40.password", "Password")] []).2
    = some .ErrUnknownSecretKey := by decide

example : parseConfig [("10.20.30.40.password", "Password")] []
    = ([("10.20.30.40", ⟨"", "Password", "", ""⟩)], some .ErrCredentialMissing) := by decide

example : parseConfig [("10.20.30.40.username", "Admin")] []
    = ([("10.20.30.40", ⟨"Admin", "", "", ""⟩)], some .ErrCredentialMissing) := by decide

example : parseConfig [("10.20.30.40.vc-session-manager-url", "https://something.tld/session")] []
    = ([("10.20.30.40", ⟨"", "", "https://something.tld/session", ""⟩)], none) := by decide

example : parseConfig [("10.20.30.40.vc-session-manager-token", "token")] []
    = ([("10.20.30.40", ⟨"", "", "", "token"⟩)], some .ErrCredentialMissing) := by decide

example : parseConfig [("10.20.30.40.vc-session-manager-url", "https://something.tld/session"),
      ("10.20.30.40.vc-session-manager-token", "token")] []
    = ([("10.20.30.40", ⟨"", "", "https://something.tld/session", "token"⟩)], none) := by decide

example : (parseConfig [("10.20.30.40", "Admin")] []).2 = some .ErrUnknownSecretKey := by decide

example : parseConfig [("username_0", "Admin"), ("password_0", "Password"), ("server_0", "fd01::1"),
      ("username_foo", "Adminfoo"), ("password_foo", "Passwordfoo"), ("server_foo", "10.20.30.40")] []
    = ([("fd01::1", ⟨"Admin", "Password", "", ""⟩),
        ("10.20.30.40", ⟨"Adminfoo", "Passwordfoo", "", ""⟩)], none) := by decide

example : (parseConfig [("username_0", "Admin"), ("server_0", "fd01::1")] []).2
    = some .ErrCredentialMissing := by decide

example : (parseConfig [("password_0", "Password"), ("server_0", "fd01::1")] []).2
    = some .ErrCredentialMissing := by decide

example : (parseConfig [("username_0", "Admin"), ("password_0", "Password"), ("server_0", "fd01::1"),
      ("password_1", "Password")] []).2 = some .ErrIncompleteCredentialSet := by decide

example : (parseConfig [("username_0", "Admin"), ("password_0", "Password"), ("server_0", "fd01::1"),
      ("username_1", "Password")] []).2 = some .ErrIncompleteCredentialSet := by decide

example : (parseConfig [("username_", "Admin"), ("password_", "Password"), ("server_", "fd01::1")] []).2
    = some .ErrUnknownSecretKey := by decide

example : parseConfig [("10.20.30.40.username", "Admin"), ("10.20.30.40.password", "Password"),
      ("username_0", "Adminalt"), ("password_0", "Passwordalt"), ("server_0", "fd01::1")] []
    = ([("10.20.30.40", ⟨"Admin", "Password", "", ""⟩),
        ("fd01::1", ⟨"Adminalt", "Passwordalt", "", ""⟩)], none) := by decide

example : (parseConfig [("username_", "Admin")] []).2 = some .ErrUnknownSecretKey := by decide

example : (parseConfig [("password_", "Password")] []).2 = some .ErrUnknownSecretKey := by decide

example : (parseConfig [] []).2 = some .ErrCredentialMissing := by decide


/-! Concrete pins from `TestSecretCredentialManagerK8s_GetCredential`. -/

example : (GetCredential emptyManager (some defaultSecret) "0.0.0.0").2
    = .ok ⟨"user", "password", "", ""⟩ := rfl

example : (GetCredential emptyManager none "0.0.0.0").2
    = .error .ErrCredentialsNotFound := rfl

example : (GetCredential emptyManager (some ⟨1, []⟩) "0.0.0.0").2
    = .error .ErrCredentialMissing := rfl

example : (GetCredential emptyManager (some defaultSecret) "1.1.1.1").2
    = .error .ErrCredentialsNotFound := rfl

example :
    let afterAdd := (GetCredential emptyManager (some defaultSecret) "0.0.0.0").1
    (GetCredential afterAdd none "0.0.0.0").2 = .ok ⟨"user", "password", "", ""⟩ := rfl

example : (GetCredential emptyManager
      (some ⟨1, [("0.0.0.0.username", "user"), ("0.0.0.0.password", "password"),
                 ("0.0.1.1.vc-session-manager-url", "https://somemanager.tld/session"),
                 ("0.0.1.1.vc-session-manager-token", "token")]⟩) "0.0.1.1").2
    = .ok ⟨"", "", "https://somemanager.tld/session", "token"⟩ := rfl


/-! Helper lemmas. -/

lemma classify_altUser (idx : String) (h : idx ≠ "") :
    classifyKey ("username_" ++ idx) = .altUser idx := by
  obtain ⟨l⟩ := idx
  cases l with
  | nil => exact absurd rfl h
  | cons c cs => rfl

lemma classify_altPass (idx : String) (h : idx ≠ "") :
    classifyKey ("password_" ++ idx) = .altPass idx := by
  obtain ⟨l⟩ := idx
  cases l with
  | nil => exact absurd rfl h
  | cons c cs => rfl

lemma classify_altServer (idx : String) (h : idx ≠ "") :
    classifyKey ("server_" ++ idx) = .altServer idx := by
  obtain ⟨l⟩ := idx
  cases l with
  | nil => exact absurd rfl h
  | cons c cs => rfl

lemma scanKeys_append (xs ys : List (String × String)) (cfg : CredTable) (stg : AltStaging) :
    scanKeys (xs ++ ys) cfg stg
      = (scanKeys xs cfg stg).bind (fun p => scanKeys ys p.1 p.2) := by
  induction xs generalizing cfg stg with
  | nil => rfl
  | cons kv rest ih =>
      obtain ⟨k, v⟩ := kv
      simp only [List.cons_append, scanKeys]
      cases h : applyKey cfg stg (classifyKey k) (trimNewlines v) with
      | none => rfl
      | some p => exact ih p.1 p.2

lemma scan_tripleKeys (t : AltTriple) (h : t.idx ≠ "") (cfg : CredTable) (stg : AltStaging) :
    scanKeys (tripleKeys t) cfg stg
      = some (cfg,
          upsertAlt
            (upsertAlt
              (upsertAlt stg t.idx (fun e => { e with user := some (trimNewlines t.user) }))
              t.idx (fun e => { e with pass := some (trimNewlines t.pass) }))
            t.idx (fun e => { e with server := some (trimNewlines t.server) })) := by
  simp only [tripleKeys, scanKeys, classify_altUser t.idx h, classify_altPass t.idx h,
    classify_altServer t.idx h, applyKey]

lemma upsertAlt_fresh (stg : AltStaging) (k : String) (f : AltEntry → AltEntry)
    (h : k ∉ keysA stg) :
    upsertAlt stg k f = stg ++ [(k, f AltEntry.empty)] := by
  induction stg with
  | nil => rfl
  | cons p rest ih =>
      obtain ⟨k', e⟩ := p
      simp only [keysA, List.map_cons, List.mem_cons, not_or] at h
      have hk : ¬ (k' = k) := fun hq => h.1 hq.symm
      simp only [upsertAlt, if_neg hk, List.cons_append, List.cons.injEq, true_and]
      exact ih (by simpa [keysA] using h.2)

lemma upsertAlt_last (stg : AltStaging) (k : String) (e : AltEntry) (f : AltEntry → AltEntry)
    (h : k ∉ keysA stg) :
    upsertAlt (stg ++ [(k, e)]) k f = stg ++ [(k, f e)] := by
  induction stg with
  | nil => simp [upsertAlt]
  | cons p rest ih =>
      obtain ⟨k', e'⟩ := p
      simp only [keysA, List.map_cons, List.mem_cons, not_or] at h
      have hk : ¬ (k' = k) := fun hq => h.1 hq.symm
      simp only [List.cons_append, upsertAlt, if_neg hk, List.cons.injEq, true_and]
      exact ih (by simpa [keysA] using h.2)

lemma stage_fresh (t : AltTriple) (stg : AltStaging) (h : t.idx ∉ keysA stg) :
    upsertAlt
        (upsertAlt
          (upsertAlt stg t.idx (fun e => { e with user := some (trimNewlines t.user) }))
          t.idx (fun e => { e with pass := some (trimNewlines t.pass) }))
        t.idx (fun e => { e with server := some (trimNewlines t.server) })
      = stg ++ [(t.idx, stagedTriple t)] := by
  rw [upsertAlt_fresh stg t.idx _ h, upsertAlt_last stg t.idx _ _ h, upsertAlt_last stg t.idx _ _ h]
  rfl

lemma keysA_append (a b : AltStaging) : keysA (a ++ b) = keysA a ++ keysA b := by
  simp [keysA]

lemma scan_altPayload (ts : List AltTriple) (cfg : CredTable) (stg : AltStaging)
    (hidx : ∀ t ∈ ts, t.idx ≠ "")
    (hdis : ∀ t ∈ ts, t.idx ∉ keysA stg)
    (hnd : (ts.map (fun t => t.idx)).Nodup) :
    scanKeys (altPayload ts) cfg stg
      = some (cfg, stg ++ ts.map (fun t => (t.idx, stagedTriple t))) := by
  induction ts generalizing stg with
  | nil => simp [altPayload, scanKeys]
  | cons t rest ih =>
      simp only [altPayload]
      rw [scanKeys_append, scan_tripleKeys t (hidx t (by simp)) cfg stg, Option.some_bind]
      rw [stage_fresh t stg (hdis t (by simp))]
      simp only [List.map_cons, List.nodup_cons] at hnd
      have hidx' : ∀ u ∈ rest, u.idx ≠ "" := fun u hu => hidx u (List.mem_cons_of_mem t hu)
      have hdis' : ∀ u ∈ rest, u.idx ∉ keysA (stg ++ [(t.idx, stagedTriple t)]) := by
        intro u hu
        rw [keysA_append]
        simp only [keysA, List.map_cons, List.map_nil, List.mem_append, List.mem_cons,
          List.not_mem_nil, or_false, not_or]
        refine ⟨hdis u (List.mem_cons_of_mem t hu), fun hq => ?_⟩
        exact hnd.1 (hq ▸ List.mem_map_of_mem (fun t => t.idx) hu)
      rw [ih (stg ++ [(t.idx, stagedTriple t)]) hidx' hdis' hnd.2]
      simp

lemma mergeAlt_staged (ts : List AltTriple) (cfg : CredTable) :
    mergeAlt (ts.map (fun t => (t.idx, stagedTriple t))) cfg = (ts.foldl mergeStep cfg, true) := by
  induction ts generalizing cfg with
  | nil => rfl
  | cons t rest ih =>
      simp only [List.map_cons, mergeAlt, stagedTriple, List.foldl_cons, Option.getD_some,
        mergeStep]
      exact ih _

lemma keysC_upsert (t : CredTable) (k : String) (f : Credential → Credential) :
    keysC (upsertCred t k f) = if k ∈ keysC t then keysC t else keysC t ++ [k] := by
  induction t with
  | nil => simp [upsertCred, keysC]
  | cons p rest ih =>
      obtain ⟨k', c⟩ := p
      by_cases h : k' = k
      · subst h
        simp [upsertCred, keysC]
      · have h' : ¬ (k = k') := fun hq => h hq.symm
        simp only [upsertCred, if_neg h, keysC, List.map_cons] at ih ⊢
        rw [ih]
        by_cases hm : k ∈ List.map Prod.fst rest
        · rw [if_pos hm, if_pos (by simp [List.mem_cons, hm])]
        · rw [if_neg hm, if_neg (by simp [List.mem_cons, hm, h']), List.cons_append]

lemma mem_keysC_upsert (t : CredTable) (k : String) (f : Credential → Credential) (a : String) :
    a ∈ keysC (upsertCred t k f) ↔ a ∈ keysC t ∨ a = k := by
  rw [keysC_upsert]
  by_cases hm : k ∈ keysC t
  · rw [if_pos hm]
    constructor
    · exact Or.inl
    · rintro (h | rfl)
      · exact h
      · exact hm
  · rw [if_neg hm]
    simp [List.mem_append]

lemma nodup_keysC_upsert (t : CredTable) (k : String) (f : Credential → Credential)
    (h : (keysC t).Nodup) : (keysC (upsertCred t k f)).Nodup := by
  rw [keysC_upsert]
  by_cases hm : k ∈ keysC t
  · rwa [if_pos hm]
  · rw [if_neg hm]
    refine List.Nodup.append h (List.nodup_singleton k) ?_
    intro a ha hb
    rw [List.mem_singleton] at hb
    exact hm (hb ▸ ha)

lemma valid_upsert (t : CredTable) (k : String) (f : Credential → Credential)
    (hf : ∀ c, credValid (f c) = true) (h : ∀ p ∈ t, credValid p.2 = true) :
    ∀ p ∈ upsertCred t k f, credValid p.2 = true := by
  induction t with
  | nil =>
      intro p hp
      simp only [upsertCred, List.mem_singleton] at hp
      subst hp
      exact hf _
  | cons q rest ih =>
      obtain ⟨k', c⟩ := q
      intro p hp
      by_cases hk : k' = k
      · rw [upsertCred, if_pos hk] at hp
        rcases List.mem_cons.mp hp with rfl | hp
        · exact hf _
        · exact h p (List.mem_cons_of_mem _ hp)
      · rw [upsertCred, if_neg hk] at hp
        rcases List.mem_cons.mp hp with rfl | hp
        · exact h _ (List.mem_cons_self _ _)
        · exact ih (fun q hq => h q (List.mem_cons_of_mem _ hq)) p hp

lemma fold_mergeStep_mem (ts : List AltTriple) (cfg : CredTable) (a : String) :
    a ∈ keysC (ts.foldl mergeStep cfg)
      ↔ a ∈ keysC cfg ∨ a ∈ ts.map (fun t => trimNewlines t.server) := by
  induction ts generalizing cfg with
  | nil => simp
  | cons t rest ih =>
      simp only [List.foldl_cons, List.map_cons, List.mem_cons]
      rw [ih]
      simp only [mergeStep]
      rw [mem_keysC_upsert]
      tauto

lemma fold_mergeStep_nodup (ts : List AltTriple) (cfg : CredTable)
    (h : (keysC cfg).Nodup) : (keysC (ts.foldl mergeStep cfg)).Nodup := by
  induction ts generalizing cfg with
  | nil => simpa
  | cons t rest ih =>
      simp only [List.foldl_cons]
      exact ih _ (nodup_keysC_upsert _ _ _ h)

lemma fold_mergeStep_valid (ts : List AltTriple) (cfg : CredTable)
    (hts : ∀ t ∈ ts, trimNewlines t.user ≠ "" ∧ trimNewlines t.pass ≠ "")
    (h : ∀ p ∈ cfg, credValid p.2 = true) :
    ∀ p ∈ ts.foldl mergeStep cfg, credValid p.2 = true := by
  induction ts generalizing cfg with
  | nil => exact h
  | cons t rest ih =>
      simp only [List.foldl_cons]
      refine ih _ (fun u hu => hts u (List.mem_cons_of_mem t hu)) ?_
      refine valid_upsert cfg _ _ ?_ h
      intro c
      have hv := hts t (List.mem_cons_self t rest)
      simp [credValid, bne_iff_ne, hv.1, hv.2]

lemma altPayload_ne_nil (ts : List AltTriple) (h : ts ≠ []) : altPayload ts ≠ [] := by
  cases ts with
  | nil => exact absurd rfl h
  | cons t rest => simp [altPayload, tripleKeys]

lemma mergeAlt_append_noserver (ts : List AltTriple) (cfg : CredTable) (j : String)
    (e : AltEntry) (he : e.server = none) :
    (mergeAlt (ts.map (fun t => (t.idx, stagedTriple t)) ++ [(j, e)]) cfg).2 = false := by
  induction ts generalizing cfg with
  | nil => simp [mergeAlt, he]
  | cons t rest ih =>
      simp only [List.map_cons, List.cons_append, mergeAlt, stagedTriple]
      exact ih _

lemma countLogin_append (a b : List AuthEvent) :
    countLogin (a ++ b) = countLogin a + countLogin b := by
  simp [countLogin]

lemma signer_countLogin (conn : VSphereConnection) (env : VCEnv) :
    countLogin (Signer conn env).2 = 0 := by
  unfold Signer
  cases hp : env.pemDecode conn.Username <;>
    cases hx : env.x509KeyPair <;>
      cases hs : env.stsNewClient <;>
        cases hi : env.stsIssue <;>
          simp [hp, hx, hs, hi, countLogin, isLoginEvent]

lemma login_ok_countLogin (conn : VSphereConnection) (env : VCEnv) (tr : List AuthEvent)
    (h : login conn env = (none, tr)) : countLogin tr = 1 := by
  have hs := signer_countLogin conn env
  unfold login at h
  split at h
  · cases hg : env.getSharedToken conn.SessionManagerURL conn.SessionManagerToken with
    | error e => rw [hg] at h; simp at h
    | ok tok =>
        rw [hg] at h
        simp only [] at h
        cases hc : env.cloneSession tok with
        | error e => rw [hc] at h; simp at h
        | ok u =>
            rw [hc] at h
            simp only [Prod.mk.injEq, true_and] at h
            subst h
            rfl
  · cases hS : Signer conn env with
    | mk r tr0 =>
        rw [hS] at h
        rw [hS] at hs
        simp only at hs
        cases r with
        | error e => simp at h
        | ok so =>
            cases so with
            | none =>
                simp only [] at h
                cases hl : env.loginUserPass conn.Username conn.Password with
                | error e => rw [hl] at h; simp at h
                | ok u =>
                    rw [hl] at h
                    simp only [Prod.mk.injEq, true_and] at h
                    subst h
                    rw [countLogin_append, hs]
                    rfl
            | some sg =>
                simp only [] at h
                cases hl : env.loginByToken sg with
                | error e => rw [hl] at h; simp at h
                | ok u =>
                    rw [hl] at h
                    simp only [Prod.mk.injEq, true_and] at h
                    subst h
                    rw [countLogin_append, hs]
                    rfl

lemma NewClient_ok (conn : VSphereConnection) (env : VCEnv) (conn' : VSphereConnection)
    (c : Nat) (tr : List AuthEvent) (h : NewClient conn env = (conn', .ok c, tr)) :
    env.vimNewClient = .ok c ∧ login conn env = (none, tr)
    ∧ conn' = (if conn.RoundTripperCount = 0 then
        { conn with RoundTripperCount := RoundTripperDefaultCount } else conn) := by
  unfold NewClient at h
  cases hp : env.parseURL with
  | error e => rw [hp] at h; simp at h
  | ok u =>
      rw [hp] at h
      cases hr : (if conn.CACert ≠ "" then env.setRootCAs else Except.ok ()) with
      | error e => rw [hr] at h; simp at h
      | ok u' =>
          rw [hr] at h
          cases hv : env.vimNewClient with
          | error e => rw [hv] at h; simp at h
          | ok c0 =>
              rw [hv] at h
              cases hl : login conn env with
              | mk le ltr =>
                  rw [hl] at h
                  cases le with
                  | some e => simp at h
                  | none =>
                      simp only [Prod.mk.injEq, Except.ok.injEq] at h
                      obtain ⟨h1, h2, h3⟩ := h
                      subst h2
                      subst h3
                      exact ⟨rfl, rfl, h1.symm⟩

/-! Claim theorems. -/

/-- C1 (counterexample): the payload holding only
`10.20.30.40.vc-session-manager-url` — a session-manager URL with no token —
parses with SUCCESS (`none` error, not `ErrCredentialMissing`) and the
result table DOES gain an entry for the endpoint, exactly as the
repository's own test `TestParseSecretConfig` ("Missing session manager
token", expected error nil) demands; the claim is false at this input. -/
theorem claim1_counterexample :
    (parseConfig [("10.20.30.40.vc-session-manager-url", "https://something.tld/session")] []).2
        = none
    ∧ lookupCred
        (parseConfig [("10.20.30.40.vc-session-manager-url", "https://something.tld/session")] []).1
        "10.20.30.40"
        = some ⟨"", "", "https://something.tld/session", ""⟩ := by decide

/-- C1 (amended): the session-manager token is optional.  A payload holding
only E's `vc-session-manager-url` key (with a value that is non-empty after
newline-trimming) parses successfully and commits an entry for E whose URL
is the trimmed value and whose token is empty; the one-sided pair that does
fail with `ErrCredentialMissing` is the reverse one, token without URL, and
even that failure leaves the partially populated entry in the result
table. -/
theorem claim1_url_without_token (k kt ep ept u t : String)
    (hk : classifyKey k = .legacyURL ep) (hu : trimNewlines u ≠ "")
    (hkt : classifyKey kt = .legacyToken ept) :
    parseConfig [(k, u)] [] = ([(ep, ⟨"", "", trimNewlines u, ""⟩)], none)
    ∧ parseConfig [(kt, t)] []
        = ([(ept, ⟨"", "", "", trimNewlines t⟩)], some .ErrCredentialMissing) := by
  constructor
  · simp [parseConfig, scanKeys, hk, applyKey, upsertCred, mergeAlt, Credential.empty,
      credValid, bne_iff_ne, hu]
  · simp [parseConfig, scanKeys, hkt, applyKey, upsertCred, mergeAlt, Credential.empty,
      credValid]

/-- C1 (witness): the amended theorem applied at the concrete test vectors. -/
theorem claim1_witness :
    parseConfig [("10.20.30.40.vc-session-manager-url", "https://something.tld/session")] []
        = ([("10.20.30.40", ⟨"", "", "https://something.tld/session", ""⟩)], none)
    ∧ parseConfig [("10.20.30.40.vc-session-manager-token", "token")] []
        = ([("10.20.30.40", ⟨"", "", "", "token"⟩)], some .ErrCredentialMissing) :=
  claim1_url_without_token "10.20.30.40.vc-session-manager-url"
    "10.20.30.40.vc-session-manager-token" "10.20.30.40" "10.20.30.40"
    "https://something.tld/session" "token" (by decide) (by decide) (by decide)

/-- C5: with the backing Secret deleted from the store (`none`), a manager
whose cache holds a successfully parsed table still serves the previously
cached Credential for a known endpoint, with no error and no state change —
the cache is not cleared on Secret absence. -/
theorem claim5_cache_survives_deletion (mgr : CredentialManager) (d : List (String × String))
    (ep : String) (c : Credential)
    (_hparse : parseConfig d [] = (mgr.cache.table, none))
    (hlook : lookupCred mgr.cache.table ep = some c) :
    GetCredential mgr none ep = (mgr, .ok c) := by
  simp [GetCredential, hlook]

/-- C5 (witness): the theorem applied to the cache parsed from the test's
`defaultSecret`, after that Secret is deleted. -/
theorem claim5_witness :
    GetCredential mgrCached none "0.0.0.0" = (mgrCached, .ok ⟨"user", "password", "", ""⟩) :=
  claim5_cache_survives_deletion mgrCached defaultSecret.data "0.0.0.0"
    ⟨"user", "password", "", ""⟩ (by decide) (by decide)

/-- C7 (counterexample): an indexed-form payload in which index `0` has all
three keys present but the `username_0` VALUE is empty fails with
`ErrCredentialMissing` instead of parsing successfully; likewise the claim's
"for every payload" includes ones the validation rejects. -/
theorem claim7_counterexample :
    (parseConfig [("username_0", ""), ("password_0", "Password"), ("server_0", "fd01::1")] []).2
        = some CredError.ErrCredentialMissing
    ∧ (parseConfig [("username_0", ""), ("password_0", "Password"), ("server_0", "fd01::1")] []).2
        ≠ none := by decide

/-- C7 (amended): for every non-empty indexed-form payload in which every
index token (arbitrary content, numeric or not, pairwise distinct as map
keys are) has all three keys and the username/password values are non-empty
after trimming, parsing succeeds and the resulting table has pairwise
distinct keys, containing a key `s` exactly when `s` is one of the
(trimmed) `server_i` values: one entry per distinct server value. -/
theorem claim7_one_entry_per_server (ts : List AltTriple)
    (hne : ts ≠ [])
    (hidx : ∀ t ∈ ts, t.idx ≠ "")
    (hnd : (ts.map (fun t => t.idx)).Nodup)
    (hval : ∀ t ∈ ts, trimNewlines t.user ≠ "" ∧ trimNewlines t.pass ≠ "") :
    ∃ table : CredTable,
      parseConfig (altPayload ts) [] = (table, none)
      ∧ (keysC table).Nodup
      ∧ (∀ s, s ∈ keysC table ↔ s ∈ ts.map (fun t => trimNewlines t.server)) := by
  have hscan := scan_altPayload ts [] [] hidx (fun t ht => by simp [keysA]) hnd
  rw [List.nil_append] at hscan
  have hvalid : (ts.foldl mergeStep []).all (fun p => credValid p.2) = true :=
    List.all_eq_true.mpr
      (fold_mergeStep_valid ts [] hval (fun p hp => absurd hp (List.not_mem_nil p)))
  refine ⟨ts.foldl mergeStep [], ?_, fold_mergeStep_nodup ts [] (by simp [keysC]), ?_⟩
  · unfold parseConfig
    rw [if_neg (altPayload_ne_nil ts hne), hscan]
    simp only []
    rw [mergeAlt_staged ts []]
    simp only []
    rw [if_pos hvalid]
  · intro s
    rw [fold_mergeStep_mem]
    simp [keysC]

/-- C7 (witness): the amended theorem applied at the two-triple payload of
the repository's test (indices `0` and `foo`). -/
theorem claim7_witness :
    ∃ table : CredTable,
      parseConfig (altPayload triples0) [] = (table, none)
      ∧ (keysC table).Nodup
      ∧ (∀ s, s ∈ keysC table ↔ s ∈ triples0.map (fun t => trimNewlines t.server)) :=
  claim7_one_entry_per_server triples0 (by decide) (by decide) (by decide) (by decide)

/-- C8 (counterexample): the payload `{username_0, server_0}` — index `0`
lacks `password_0`, so the claim asserts `ErrIncompleteCredentialSet` — in
fact fails with `ErrCredentialMissing`, exactly as the repository's test
("Alternative IPv6 compatible secret: missing password") demands. -/
theorem claim8_counterexample :
    (parseConfig [("username_0", "Admin"), ("server_0", "fd01::1")] []).2
        = some CredError.ErrCredentialMissing
    ∧ some CredError.ErrCredentialMissing ≠ some CredError.ErrIncompleteCredentialSet := by
  decide

/-- C8 (amended): `ErrIncompleteCredentialSet` — distinct from
`ErrUnknownSecretKey` and `ErrCredentialMissing` — is returned when an
index carries a `username_<idx>` or a `password_<idx>` key but NO
`server_<idx>` key (both variants proved); an index that has its server
key but lacks the username or the password key fails with
`ErrCredentialMissing` instead (both variants proved). -/
theorem claim8_incomplete_vs_missing (ts : List AltTriple) (j v i u s : String)
    (hidx : ∀ t ∈ ts, t.idx ≠ "") (hnd : (ts.map (fun t => t.idx)).Nodup)
    (hj : j ≠ "") (hjf : j ∉ ts.map (fun t => t.idx)) (hi : i ≠ "") :
    (parseConfig (altPayload ts ++ [("username_" ++ j, v)]) []).2
        = some CredError.ErrIncompleteCredentialSet
    ∧ (parseConfig (altPayload ts ++ [("password_" ++ j, v)]) []).2
        = some CredError.ErrIncompleteCredentialSet
    ∧ (parseConfig [("username_" ++ i, u), ("server_" ++ i, s)] []).2
        = some CredError.ErrCredentialMissing
    ∧ (parseConfig [("password_" ++ i, u), ("server_" ++ i, s)] []).2
        = some CredError.ErrCredentialMissing
    ∧ CredError.ErrIncompleteCredentialSet ≠ CredError.ErrUnknownSecretKey
    ∧ CredError.ErrIncompleteCredentialSet ≠ CredError.ErrCredentialMissing := by
  have hscan := scan_altPayload ts [] [] hidx (fun t ht => by simp [keysA]) hnd
  rw [List.nil_append] at hscan
  have hjf' : j ∉ keysA (ts.map fun t => (t.idx, stagedTriple t)) := by
    simpa [keysA, List.map_map, Function.comp] using hjf
  refine ⟨?_, ?_, ?_, ?_, by decide, by decide⟩
  · unfold parseConfig
    rw [if_neg (by simp), scanKeys_append, hscan, Option.some_bind]
    simp only [scanKeys, classify_altUser j hj, applyKey]
    rw [upsertAlt_fresh _ _ _ hjf']
    simp only [AltEntry.empty]
    rcases hM : mergeAlt
        ((ts.map fun t => (t.idx, stagedTriple t))
          ++ [(j, ⟨some (trimNewlines v), none, none⟩)]) [] with ⟨cfg', b⟩
    have hb := mergeAlt_append_noserver ts [] j ⟨some (trimNewlines v), none, none⟩ rfl
    rw [hM] at hb
    simp only [] at hb
    subst hb
    rw [hM]
  · unfold parseConfig
    rw [if_neg (by simp), scanKeys_append, hscan, Option.some_bind]
    simp only [scanKeys, classify_altPass j hj, applyKey]
    rw [upsertAlt_fresh _ _ _ hjf']
    simp only [AltEntry.empty]
    rcases hM : mergeAlt
        ((ts.map fun t => (t.idx, stagedTriple t))
          ++ [(j, ⟨none, some (trimNewlines v), none⟩)]) [] with ⟨cfg', b⟩
    have hb := mergeAlt_append_noserver ts [] j ⟨none, some (trimNewlines v), none⟩ rfl
    rw [hM] at hb
    simp only [] at hb
    subst hb
    rw [hM]
  · unfold parseConfig
    rw [if_neg (by simp)]
    simp [scanKeys, classify_altUser i hi, classify_altServer i hi, applyKey, upsertAlt,
      AltEntry.empty, mergeAlt, upsertCred, credValid, Credential.empty]
  · unfold parseConfig
    rw [if_neg (by simp)]
    simp [scanKeys, classify_altPass i hi, classify_altServer i hi, applyKey, upsertAlt,
      AltEntry.empty, mergeAlt, upsertCred, credValid, Credential.empty]

/-- C8 (witness): the amended theorem applied at the test's concrete
payloads (full triple `0` plus a dangling `username_1` or `password_1`; and
`{username_0, server_0}` / `{password_0, server_0}`). -/
theorem claim8_witness :
    (parseConfig (altPayload [⟨"0", "Admin", "Password", "fd01::1"⟩]
        ++ [("username_" ++ "1", "Password")]) []).2
        = some CredError.ErrIncompleteCredentialSet
    ∧ (parseConfig (altPayload [⟨"0", "Admin", "Password", "fd01::1"⟩]
        ++ [("password_" ++ "1", "Password")]) []).2
        = some CredError.ErrIncompleteCredentialSet
    ∧ (parseConfig [("username_" ++ "0", "Admin"), ("server_" ++ "0", "fd01::1")] []).2
        = some CredError.ErrCredentialMissing
    ∧ (parseConfig [("password_" ++ "0", "Admin"), ("server_" ++ "0", "fd01::1")] []).2
        = some CredError.ErrCredentialMissing
    ∧ CredError.ErrIncompleteCredentialSet ≠ CredError.ErrUnknownSecretKey
    ∧ CredError.ErrIncompleteCredentialSet ≠ CredError.ErrCredentialMissing :=
  claim8_incomplete_vs_missing [⟨"0", "Admin", "Password", "fd01::1"⟩] "1" "Password" "0"
    "Admin" "fd01::1" (by decide) (by decide) (by decide) (by decide) (by decide)

/-- C2 (counterexample): with a stored client (`some 1`) and a session query
failing with error 7, `Connect` returns the query error to the caller with
the stored client kept in place and performs NO fresh login — contradicting
the claim that it would discard the client and log in afresh instead of
returning the error. -/
theorem claim2_counterexample :
    (Connect connWithClient envQueryErr).err = some 7
    ∧ (Connect connWithClient envQueryErr).conn.Client = some 1
    ∧ AuthEvent.newClientCall ∉ (Connect connWithClient envQueryErr).trace
    ∧ countLogin (Connect connWithClient envQueryErr).trace = 0 := by decide

/-- C2 (amended): when the stored client is non-nil and the session-validity
query itself returns an error, `Connect` returns that error unchanged, with
the connection (client handle included) untouched and no login performed;
only a successful query reporting no active session triggers the
discard-and-fresh-login path (connection.go lines 75–79). -/
theorem claim2_query_error_returned (conn : VSphereConnection) (env : VCEnv) (c : Nat)
    (e : GoErr) (hc : conn.Client = some c) (hs : env.userSession = .error e) :
    Connect conn env = ⟨conn, some e, [.userSessionQuery]⟩ := by
  unfold Connect
  rw [hc, hs]

/-- C2 (witness): the amended theorem at the concrete fixture. -/
theorem claim2_witness :
    Connect connWithClient envQueryErr = ⟨connWithClient, some 7, [.userSessionQuery]⟩ :=
  claim2_query_error_returned connWithClient envQueryErr 1 7 rfl rfl

/-- C3: with a stored client and a session query that succeeds but reports a
nil (expired) session, a `Connect` call that returns no error performed
exactly one login and replaced the `Client` field with the client returned
by the external client constructor; with a query reporting a live session,
`Connect` is the identity on the connection, returns no error, and its
trace holds zero logins. -/
theorem claim3_reconnect_once (conn : VSphereConnection) (env : VCEnv) (c : Nat)
    (hc : conn.Client = some c) :
    (env.userSession = .ok none →
      (Connect conn env).err = none →
      countLogin (Connect conn env).trace = 1
      ∧ ∃ cN, env.vimNewClient = .ok cN ∧ (Connect conn env).conn.Client = some cN)
    ∧ (∀ s, env.userSession = .ok (some s) →
        Connect conn env = ⟨conn, none, [.userSessionQuery]⟩
        ∧ countLogin [AuthEvent.userSessionQuery] = 0) := by
  constructor
  · intro hs herr
    have hC : Connect conn env =
        (match NewClient conn env with
          | (conn', .error e, tr) =>
              ⟨{ conn' with Client := none }, some e, .userSessionQuery :: .newClientCall :: tr⟩
          | (conn', .ok cN, tr) =>
              ⟨{ conn' with Client := some cN }, none,
                .userSessionQuery :: .newClientCall :: tr⟩) := by
      unfold Connect
      rw [hc, hs]
    rcases hN : NewClient conn env with ⟨conn', res, tr⟩
    rw [hN] at hC
    cases res with
    | error e =>
        rw [hC] at herr
        simp at herr
    | ok cN =>
        obtain ⟨hv, hl, -⟩ := NewClient_ok conn env conn' cN tr hN
        rw [hC]
        refine ⟨?_, cN, hv, rfl⟩
        have h1 := login_ok_countLogin conn env tr hl
        simp [countLogin, isLoginEvent] at h1 ⊢
        exact h1
  · intro s hs
    constructor
    · unfold Connect
      rw [hc, hs]
    · rfl

/-- C3 (witness): the theorem at the concrete fixtures: expired session
(fresh login happens, client becomes 2) and live session (no-op). -/
theorem claim3_witness :
    (countLogin (Connect connWithClient envExpired).trace = 1
      ∧ ∃ cN, envExpired.vimNewClient = .ok cN
          ∧ (Connect connWithClient envExpired).conn.Client = some cN)
    ∧ (Connect connWithClient envBase = ⟨connWithClient, none, [.userSessionQuery]⟩
        ∧ countLogin [AuthEvent.userSessionQuery] = 0) :=
  ⟨(claim3_reconnect_once connWithClient envExpired 1 rfl).1 rfl rfl,
   (claim3_reconnect_once connWithClient envBase 1 rfl).2 5 rfl⟩

/-- C4: the login strategy is selected in the fixed order of connection.go
lines 137–167: a non-empty `SessionManagerURL` selects the shared-token
path (whose behaviour and trace are independent of `Username`/`Password`,
which are not consulted, and whose only actions are the token fetch and the
session clone); with no URL, a PEM-decodable username selects the
certificate/SAML path (STS token issue then `LoginByToken`); otherwise a
single username/password `SessionManager.Login` is performed. -/
theorem claim4_strategy_order (conn : VSphereConnection) (env : VCEnv) :
    (conn.SessionManagerURL ≠ "" →
      (∀ u p, login conn env = login { conn with Username := u, Password := p } env)
      ∧ (∀ ev ∈ (login conn env).2,
          ev = AuthEvent.getSharedToken ∨ ev = AuthEvent.cloneSession))
    ∧ (conn.SessionManagerURL = "" → env.pemDecode conn.Username = true →
        ∀ ev ∈ (login conn env).2,
          ev = AuthEvent.stsIssue ∨ ev = AuthEvent.loginByToken)
    ∧ (conn.SessionManagerURL = "" → env.pemDecode conn.Username = false →
        (login conn env).2 = [AuthEvent.loginUserPass conn.Username conn.Password]) := by
  refine ⟨fun hu => ⟨fun u p => ?_, ?_⟩, fun hu hp => ?_, fun hu hp => ?_⟩
  · unfold login
    rw [if_pos hu, if_pos (show ({ conn with Username := u, Password := p
        } : VSphereConnection).SessionManagerURL ≠ "" from hu)]
  · unfold login
    rw [if_pos hu]
    cases hg : env.getSharedToken conn.SessionManagerURL conn.SessionManagerToken with
    | error e => simp
    | ok tok =>
        simp only []
        cases hcl : env.cloneSession tok with
        | error e => simp
        | ok x => simp
  · unfold login
    rw [if_neg (by simp [hu])]
    unfold Signer
    rw [hp]
    simp only [if_true]
    cases hx : env.x509KeyPair with
    | error e => simp
    | ok x =>
        simp only []
        cases hstc : env.stsNewClient with
        | error e => simp
        | ok y =>
            simp only []
            cases hsti : env.stsIssue with
            | error e => simp
            | ok sg =>
                simp only []
                cases hlt : env.loginByToken sg with
                | error e => simp
                | ok z => simp
  · unfold login
    rw [if_neg (by simp [hu])]
    unfold Signer
    rw [hp]
    simp only [Bool.false_eq_true, if_false]
    cases hl : env.loginUserPass conn.Username conn.Password with
    | error e => simp
    | ok z => simp

/-- C4 (witness): the theorem at the three concrete fixtures, one per
strategy: shared token (credential fields not consulted), certificate/SAML,
and username/password. -/
theorem claim4_witness :
    (login connShared envBase = login { connShared with Username := "other", Password := "pw" } envBase)
    ∧ (AuthEvent.getSharedToken = AuthEvent.getSharedToken
        ∨ AuthEvent.getSharedToken = AuthEvent.cloneSession)
    ∧ (AuthEvent.stsIssue = AuthEvent.stsIssue ∨ AuthEvent.stsIssue = AuthEvent.loginByToken)
    ∧ (login connWithClient envBase).2 = [AuthEvent.loginUserPass "user" "secret"] :=
  ⟨((claim4_strategy_order connShared envBase).1 (by decide)).1 "other" "pw",
   ((claim4_strategy_order connShared envBase).1 (by decide)).2
     AuthEvent.getSharedToken (by decide),
   (claim4_strategy_order connPEM envPEM).2.1 rfl (by decide)
     AuthEvent.stsIssue (by decide),
   (claim4_strategy_order connWithClient envBase).2.2 rfl rfl⟩

/-- C6: `UpdateCredentials` writes exactly the four credential fields — the
client handle and every other field are unchanged — and triggers no
reconnect: a subsequent `Connect` that finds the session live performs no
login and leaves the connection as-is, the new values being read only when
a login actually happens (here: the username/password strategy logs in
with exactly the new pair). -/
theorem claim6_update_frame (conn : VSphereConnection) (env : VCEnv)
    (u p sURL sTok : String) :
    (UpdateCredentials conn u p sURL sTok).Client = conn.Client
    ∧ (UpdateCredentials conn u p sURL sTok).Hostname = conn.Hostname
    ∧ (UpdateCredentials conn u p sURL sTok).Port = conn.Port
    ∧ (UpdateCredentials conn u p sURL sTok).CACert = conn.CACert
    ∧ (UpdateCredentials conn u p sURL sTok).Thumbprint = conn.Thumbprint
    ∧ (UpdateCredentials conn u p sURL sTok).Insecure = conn.Insecure
    ∧ (UpdateCredentials conn u p sURL sTok).RoundTripperCount = conn.RoundTripperCount
    ∧ (UpdateCredentials conn u p sURL sTok).Username = u
    ∧ (UpdateCredentials conn u p sURL sTok).Password = p
    ∧ (UpdateCredentials conn u p sURL sTok).SessionManagerURL = sURL
    ∧ (UpdateCredentials conn u p sURL sTok).SessionManagerToken = sTok
    ∧ (∀ c s, conn.Client = some c → env.userSession = .ok (some s) →
        Connect (UpdateCredentials conn u p sURL sTok) env
          = ⟨UpdateCredentials conn u p sURL sTok, none, [.userSessionQuery]⟩
        ∧ countLogin [AuthEvent.userSessionQuery] = 0)
    ∧ (sURL = "" → env.pemDecode u = false →
        (login (UpdateCredentials conn u p sURL sTok) env).2
          = [AuthEvent.loginUserPass u p]) := by
  refine ⟨rfl, rfl, rfl, rfl, rfl, rfl, rfl, rfl, rfl, rfl, rfl,
    fun c s hc hs => ⟨?_, rfl⟩, fun hu hp => ?_⟩
  · unfold Connect
    rw [show (UpdateCredentials conn u p sURL sTok).Client = some c from hc, hs]
  · exact (claim4_strategy_order (UpdateCredentials conn u p sURL sTok) env).2.2
      (by simpa [UpdateCredentials] using hu) (by simpa [UpdateCredentials] using hp)

/-- C6 (witness): the theorem at the concrete fixture, with a live session
and fresh username/password values. -/
theorem claim6_witness :
    Connect (UpdateCredentials connWithClient "u2" "p2" "" "") envBase
        = ⟨UpdateCredentials connWithClient "u2" "p2" "" "", none, [.userSessionQuery]⟩
    ∧ (login (UpdateCredentials connWithClient "u2" "p2" "" "") envBase).2
        = [AuthEvent.loginUserPass "u2" "p2"] :=
  ⟨((claim6_update_frame connWithClient envBase "u2" "p2" "" "").2.2.2.2.2.2.2.2.2.2.2.1
      1 5 rfl rfl).1,
   (claim6_update_frame connWithClient envBase "u2" "p2" "" "").2.2.2.2.2.2.2.2.2.2.2.2
      rfl rfl⟩

/-- C9: the two error paths of `Connect` with a stored client are
asymmetric, as the implicit claim states: a failing session query returns
the error with the connection — and in particular the old client handle —
fully preserved; a nil session followed by a failing fresh-client creation
returns the creation error with `Client` left nil (the Go multiple
assignment discards the stale handle without restoring it). -/
theorem claim9_client_discarded_on_failed_recreate (conn : VSphereConnection) (env : VCEnv)
    (c : Nat) (hc : conn.Client = some c) :
    (∀ e, env.userSession = .error e →
        Connect conn env = ⟨conn, some e, [.userSessionQuery]⟩)
    ∧ (env.userSession = .ok none →
        ∀ e', (NewClient conn env).2.1 = .error e' →
          (Connect conn env).conn.Client = none ∧ (Connect conn env).err = some e') := by
  constructor
  · intro e hs
    unfold Connect
    rw [hc, hs]
  · intro hs e' hN
    rcases hNC : NewClient conn env with ⟨conn', res, tr⟩
    rw [hNC] at hN
    simp only [] at hN
    subst hN
    unfold Connect
    rw [hc, hs, hNC]
    exact ⟨rfl, rfl⟩

/-- C9 (witness): the theorem at the concrete fixtures: failed recreation
(client nil, error 8) and failed query (connection preserved, error 7). -/
theorem claim9_witness :
    ((Connect connWithClient envExpiredFail).conn.Client = none
      ∧ (Connect connWithClient envExpiredFail).err = some 8)
    ∧ Connect connWithClient envQueryErr = ⟨connWithClient, some 7, [.userSessionQuery]⟩ :=
  ⟨(claim9_client_discarded_on_failed_recreate connWithClient envExpiredFail 1 rfl).2
      rfl 8 rfl,
   (claim9_client_discarded_on_failed_recreate connWithClient envQueryErr 1 rfl).1 7 rfl⟩

/-- C10: a successful `NewClient` leaves `RoundTripperCount` non-zero: when
the field was 0 at call time it is set (as a side effect on the connection)
to `RoundTripperDefaultCount`, and a configured non-zero value is never
altered. -/
theorem claim10_roundtripper_default (conn : VSphereConnection) (env : VCEnv)
    (conn' : VSphereConnection) (c : Nat) (tr : List AuthEvent)
    (h : NewClient conn env = (conn', .ok c, tr)) :
    (conn.RoundTripperCount = 0 → conn'.RoundTripperCount = RoundTripperDefaultCount)
    ∧ conn'.RoundTripperCount ≠ 0
    ∧ (conn.RoundTripperCount ≠ 0 → conn'.RoundTripperCount = conn.RoundTripperCount) := by
  obtain ⟨-, -, h3⟩ := NewClient_ok conn env conn' c tr h
  subst h3
  by_cases h0 : conn.RoundTripperCount = 0
  · rw [if_pos h0]
    refine ⟨fun _ => rfl, ?_, fun hn => absurd h0 hn⟩
    show RoundTripperDefaultCount ≠ 0
    decide
  · rw [if_neg h0]
    exact ⟨fun hz => absurd hz h0, h0, fun _ => rfl⟩

/-- C10 (witness): the theorem at the concrete fixture, whose
`RoundTripperCount` is 0 before the call and `RoundTripperDefaultCount`
after. -/
theorem claim10_witness :
    ({ connWithClient with RoundTripperCount := RoundTripperDefaultCount
        } : VSphereConnection).RoundTripperCount = RoundTripperDefaultCount
    ∧ ({ connWithClient with RoundTripperCount := RoundTripperDefaultCount
        } : VSphereConnection).RoundTripperCount ≠ 0 :=
  ⟨(claim10_roundtripper_default connWithClient envBase
      { connWithClient with RoundTripperCount := RoundTripperDefaultCount } 2
      [AuthEvent.loginUserPass "user" "secret"] rfl).1 rfl,
   (claim10_roundtripper_default connWithClient envBase
      { connWithClient with RoundTripperCount := RoundTripperDefaultCount } 2
      [AuthEvent.loginUserPass "user" "secret"] rfl).2.1⟩

end CPV
